import Mathlib

/-!
# react-js-basic: the eight rendering functions as Lean definitions

Each `.jsx` unit under `01.Fundamentals` is embedded as a Lean function that
returns the element tree the JSX expression builds.  JavaScript's ambient
environment (the clock read by `new Date()`, the `alert` and `console.log`
sinks) is made explicit as a `Host` value threaded through every function.
-/

namespace ReactBasic

/-! ## JavaScript values -/

/-- The JavaScript values that occur as display configuration: the primitives
a display host passes (strings, numbers, booleans), `null`, and `undefined`,
which is what reading an absent property yields.  Numbers are the
integer-valued ones, the only numeric literals of the sources. -/
inductive JSValue where
  | undefined
  | null
  | boolean (b : Bool)
  | number (n : Int)
  | string (s : String)
  deriving DecidableEq, Repr

namespace JSValue

/-- ECMAScript `ToBoolean`: the truthiness an `if` condition tests. -/
def toBoolean : JSValue → Bool
  | undefined => false
  | null => false
  | boolean b => b
  | number n => n != 0
  | string s => s != ""

/-- JavaScript `a && b`: yields `a` when `a` is falsy, `b` otherwise. -/
def and (a b : JSValue) : JSValue :=
  if a.toBoolean then b else a

/-- String coercion, JavaScript `'' + v`.  An integer-valued number prints
as its decimal digits, with a leading minus sign when negative (what
JavaScript prints for integers of magnitude below 10^21). -/
def toJSString : JSValue → String
  | undefined => "undefined"
  | null => "null"
  | boolean b => if b then "true" else "false"
  | number n => toString n
  | string s => s

end JSValue

/-- A plain JavaScript object literal: its properties in authored order. -/
abbrev JSObject := List (String × JSValue)

/-- Property read `obj.key` (also what destructuring `({ key }) => ...`
binds): the stored value, or `undefined` when the property is absent. -/
def JSObject.get (obj : JSObject) (key : String) : JSValue :=
  (obj.lookup key).getD JSValue.undefined

/-- The object a display host passes to a component. -/
abbrev Props := JSObject

/-! ## The host environment -/

/-- An observable output of the two sinks the sources write to. -/
inductive Effect where
  | alert (message : String)
  | consoleLog (message : String)
  deriving DecidableEq, Repr

/-- The ambient environment of a call: the clock that `new Date()` reads
(milliseconds since the epoch), the host's `toLocaleDateString` for its
default locale and time zone, and the outputs produced so far, oldest
first. -/
structure Host where
  now : Int
  toLocaleDateString : Int → String
  effects : List Effect

/-- A JavaScript computation: it may read and extend the host environment. -/
def JS (α : Type) : Type := Host → α × Host

namespace JS

/-- Run a computation in a host environment. -/
def run {α : Type} (m : JS α) (h : Host) : α × Host := m h

instance : Monad JS where
  pure a := fun h => (a, h)
  bind m f := fun h => match m h with
    | (a, h1) => f a h1

end JS

/-- The expression `new Date()`: the current time of the host clock. -/
def newDate : JS Int := fun h => (h.now, h)

/-- The method call `date.toLocaleDateString()`. -/
def toLocaleDateString (date : Int) : JS String :=
  fun h => (h.toLocaleDateString date, h)

/-- The global `alert(message)`. -/
def alert (message : String) : JS Unit :=
  fun h => ((), { h with effects := h.effects ++ [Effect.alert message] })

/-- The call `console.log(message)`. -/
def console.log (message : String) : JS Unit :=
  fun h => ((), { h with effects := h.effects ++ [Effect.consoleLog message] })

/-! ## Element trees -/

/-- An event callback stored on an element. -/
abbrev Handler := JS Unit

/-- What an element holds for the attributes a JSX tag of the sources can
carry: `key` (the string the element factory stores, absent when no key was
given), `style` (an object literal, properties in authored order) and event
handlers (attribute name, callback). -/
structure Attrs where
  key : Option String := none
  style : Option JSObject := none
  handlers : List (String × Handler) := []

/-- The key an element gets from the attribute `key={v}`: the element
factory stores `'' + v`, and stores no key when `v` is `undefined`. -/
def Attrs.keyOf (v : JSValue) : Option String :=
  if v = JSValue.undefined then none else some v.toJSString

/-- What a JSX expression evaluates to: a child is either a JavaScript value
(JSX text is a string value; `{e}` is the value of `e`, unchanged) or a
nested element with its tag, attributes and children in order.  An
array-valued child expression contributes its items in order. -/
inductive Node where
  | value (v : JSValue)
  | element (tag : String) (attrs : Attrs) (children : List Node)

namespace Node

/-- JSX text between tags. -/
def text (s : String) : Node := value (JSValue.string s)

/-- The children of an element (none for a value). -/
def children : Node → List Node
  | value _ => []
  | element _ _ cs => cs

/-- The tag of an element. -/
def tag? : Node → Option String
  | value _ => none
  | element t _ _ => some t

/-- The key an element holds. -/
def key? : Node → Option String
  | value _ => none
  | element _ a _ => a.key

/-- The `style` attribute of an element. -/
def style? : Node → Option JSObject
  | value _ => none
  | element _ a _ => a.style

mutual
/-- Every JavaScript value displayed in a tree, in document order. -/
def values : Node → List JSValue
  | value v => [v]
  | element _ _ cs => valuesList cs
/-- The displayed values of a list of sibling trees. -/
def valuesList : List Node → List JSValue
  | [] => []
  | c :: cs => values c ++ valuesList cs
end

mutual
/-- Every event handler attached anywhere in a tree, in document order. -/
def handlers : Node → List (String × Handler)
  | value _ => []
  | element _ a cs => a.handlers ++ handlersList cs
/-- The handlers of a list of sibling trees. -/
def handlersList : List Node → List (String × Handler)
  | [] => []
  | c :: cs => handlers c ++ handlersList cs
end

end Node

open Node

/-! ## 02.JSX/JSXRules.jsx -/

def JSXRules : JS Node := do
  return element "div" {} [
    element "h1" {} [text "JSX Rules"],
    element "p" {} [text "JSX must return a ", element "b" {} [text "single parent element"]],
    element "p" {} [text "JSX element must be", element "b" {} [text "properly closed"]],
    element "p" {} [text "JSX attribute are written using ",
      element "b" {} [text "camelCase"],
      text " (eg., className instead of class)"]]

/-! ## 04.Dynamic Content/Greeting.jsx -/

def Greeting : JS Node := do
  let name := JSValue.string "John"
  let date ← newDate
  let currentDate ← toLocaleDateString date
  return element "div" {} [
    element "h1" {} [value name],
    element "p" {} [value (JSValue.string currentDate)]]

/-! ## 05.List Of Data/ProductList.jsx -/

/-- The literal `products` array of `ProductList`. -/
def ProductList.products : List JSObject := [
  [("id", .number 1), ("name", .string "Phone"), ("price", .string "$699")],
  [("id", .number 2), ("name", .string "Laptop"), ("price", .string "$1200")],
  [("id", .number 3), ("name", .string "Headphones"), ("price", .string "$199")]]

/-- The arrow function passed to `products.map`. -/
def ProductList.item (product : JSObject) : Node :=
  let id := product.get "id"
  let name := product.get "name"
  let price := product.get "price"
  element "div" { key := Attrs.keyOf id } [
    element "h1" {} [value name],
    element "h1" {} [value price]]

def ProductList : JS Node := do
  let products := ProductList.products
  return element "div" {} (products.map ProductList.item)

/-! ## 05.List Of Data/UserList.jsx -/

/-- The literal `users` array of `UserList`. -/
def UserList.users : List JSObject := [
  [("id", .number 1), ("name", .string "Alice"), ("age", .number 25)],
  [("id", .number 2), ("name", .string "Bob"), ("age", .number 30)],
  [("id", .number 3), ("name", .string "Charlie"), ("age", .number 22)]]

/-- The arrow function passed to `users.map`. -/
def UserList.item (user : JSObject) : Node :=
  let id := user.get "id"
  let name := user.get "name"
  let age := user.get "age"
  element "div" { key := Attrs.keyOf id } [
    element "h1" {} [value name],
    element "h1" {} [value age]]

def UserList : JS Node := do
  let users := UserList.users
  return element "div" {} (users.map UserList.item)

/-! ## 06.Props/Employee.jsx -/

def Employee (props : Props) : JS Node := do
  let name := props.get "name"
  let position := props.get "position"
  let salary := props.get "salary"
  return element "div" {} [
    element "h2" {} [text "Name: ", value name],
    element "p" {} [text "Position: ", value position],
    element "span" {} [text "Salary: $", value salary]]

/-! ## 07.Conditional Rendering/UserStatus.jsx -/

def UserStatus (props : Props) : JS Node := do
  let loggedIn := props.get "loggedIn"
  let isAdmin := props.get "isAdmin"
  if (JSValue.and loggedIn isAdmin).toBoolean then
    return element "h1" {} [text "Welcome Admin!"]
  else if loggedIn.toBoolean then
    return element "h1" {} [text "Welcome User!"]
  else
    return element "h1" {} [text "Welcome Guest!"]

/-! ## 08.Styling/ProfileCard.jsx -/

def ProfileCard : JS Node := do
  let styles : JSObject := [
    ("backgroundColor", .string "lightGray"),
    ("padding", .string "15px"),
    ("borderRadius", .string "8px"),
    ("color", .string "black")]
  return element "div" { style := some styles } [
    element "h2" {} [text "Harry Potter"],
    element "p" {} [text "An English Fantasy book about a wizard in his journey to defeat the dark lord"]]

/-! ## 09.Events/MouseOverText.jsx -/

/-- The inner function `moveHandler` of `MouseOverText`. -/
def MouseOverText.moveHandler : JS Unit := do
  alert "Mouse Move Event Fired"
  console.log "Mouse Move Event Fired"

def MouseOverText : JS Node := do
  return element "p" { handlers := [("onMouseOver", MouseOverText.moveHandler)] } [
    text ("Lorem ipsum dolor sit amet consectetur adipisicing elit. Accusantium " ++
      "voluptatibus libero, eius odit modi doloremque quos magni tempora. Debitis " ++
      "laborum exercitationem perferendis. Veritatis fuga, quod quasi accusamus " ++
      "eveniet voluptates suscipit.")]

/-! ## The eight units and their export statements -/

/-- The module-level shape of a source unit: its path, the identifier bound
by its top-level `const`, and the identifier named by its
`export default` statement, when the file has one. -/
structure Module where
  path : String
  component : String
  defaultExport : Option String
  deriving DecidableEq, Repr

def JSXRulesModule : Module :=
  { path := "01.Fundamentals/02.JSX/JSXRules.jsx"
    component := "JSXRules", defaultExport := some "JSXRules" }

def GreetingModule : Module :=
  { path := "01.Fundamentals/04.Dynamic Content/Greeting.jsx"
    component := "Greeting", defaultExport := some "Greeting" }

def ProductListModule : Module :=
  { path := "01.Fundamentals/05.List Of Data/ProductList.jsx"
    component := "ProductList", defaultExport := some "ProductList" }

def UserListModule : Module :=
  { path := "01.Fundamentals/05.List Of Data/UserList.jsx"
    component := "UserList", defaultExport := some "UserList" }

def EmployeeModule : Module :=
  { path := "01.Fundamentals/06.Props/Employee.jsx"
    component := "Employee", defaultExport := some "Employee" }

def UserStatusModule : Module :=
  { path := "01.Fundamentals/07.Conditional Rendering/UserStatus.jsx"
    component := "UserStatus", defaultExport := some "UserStatus" }

def ProfileCardModule : Module :=
  { path := "01.Fundamentals/08.Styling/ProfileCard.jsx"
    component := "ProfileCard", defaultExport := some "ProfileCard" }

/-- The file ends at the closing `};` of the component: it has no
`export default` statement. -/
def MouseOverTextModule : Module :=
  { path := "01.Fundamentals/09.Events/MouseOverText.jsx"
    component := "MouseOverText", defaultExport := none }

/-- The eight source units. -/
def sourceUnits : List Module :=
  [JSXRulesModule, GreetingModule, ProductListModule, UserListModule,
   EmployeeModule, UserStatusModule, ProfileCardModule, MouseOverTextModule]

/-- The rendering functions of the repository. -/
inductive Component where
  | JSXRules | Greeting | ProductList | UserList
  | Employee | UserStatus | ProfileCard | MouseOverText
  deriving DecidableEq, Repr

/-- A display host invoking a rendering function with a props object;
functions declared with no parameter ignore it. -/
def Component.render : Component → Props → JS Node
  | .JSXRules, _ => ReactBasic.JSXRules
  | .Greeting, _ => ReactBasic.Greeting
  | .ProductList, _ => ReactBasic.ProductList
  | .UserList, _ => ReactBasic.UserList
  | .Employee, props => ReactBasic.Employee props
  | .UserStatus, props => ReactBasic.UserStatus props
  | .ProfileCard, _ => ReactBasic.ProfileCard
  | .MouseOverText, _ => ReactBasic.MouseOverText

/-! ## A sample host -/

/-- Year, month and day of a day count relative to 1970-01-01 in the
proleptic Gregorian calendar. -/
def civilFromDays (days : Int) : Int × Int × Int :=
  let z := days + 719468
  let era := z / 146097
  let doe := z - era * 146097
  let yoe := (doe - doe / 1460 + doe / 36524 - doe / 146096) / 365
  let doy := doe - (365 * yoe + yoe / 4 - yoe / 100)
  let mp := (5 * doy + 2) / 153
  let d := doy - (153 * mp + 2) / 5 + 1
  let m := if mp < 10 then mp + 3 else mp - 9
  let y := yoe + era * 400 + (if m ≤ 2 then 1 else 0)
  (y, m, d)

/-- What `toLocaleDateString()` returns in a host whose default locale is
en-US and whose time zone is UTC: month/day/year without padding. -/
def enUSDateString (ms : Int) : String :=
  match civilFromDays (ms / 86400000) with
  | (y, m, d) => toString m ++ "/" ++ toString d ++ "/" ++ toString y

/-- An en-US, UTC host whose clock reads `ms` and that has produced no
output yet. -/
def sampleHost (ms : Int) : Host :=
  { now := ms, toLocaleDateString := enUSDateString, effects := [] }

end ReactBasic

/-! ## Theorems -/

namespace ReactBasic

open Node

/-- The result of `UserStatus` on any props object, with both tests of the
`if` chain spelled out. -/
theorem UserStatus_run (p : Props) (h : Host) :
    (UserStatus p).run h =
      (element "h1" {} [text (
        if (JSValue.and (p.get "loggedIn") (p.get "isAdmin")).toBoolean then "Welcome Admin!"
        else if (p.get "loggedIn").toBoolean then "Welcome User!"
        else "Welcome Guest!")], h) := by
  show (if (JSValue.and (p.get "loggedIn") (p.get "isAdmin")).toBoolean = true then
      (pure (element "h1" {} [text "Welcome Admin!"]) : JS Node)
    else if (p.get "loggedIn").toBoolean = true then pure (element "h1" {} [text "Welcome User!"])
    else pure (element "h1" {} [text "Welcome Guest!"])) h = _
  by_cases hA : (JSValue.and (p.get "loggedIn") (p.get "isAdmin")).toBoolean = true
  · rw [if_pos hA, if_pos hA]; rfl
  · rw [if_neg hA, if_neg hA]
    by_cases hL : (p.get "loggedIn").toBoolean = true
    · rw [if_pos hL, if_pos hL]; rfl
    · rw [if_neg hL, if_neg hL]; rfl

/-- C1: for every pair of boolean flags, `UserStatus` returns a single `h1`
whose text is "Welcome Admin!" when both are true, "Welcome User!" when only
`loggedIn` is true and "Welcome Guest!" whenever `loggedIn` is false; the
three cases the spec lists are instances. -/
theorem UserStatus_boolean_flags (loggedIn isAdmin : Bool) (h : Host) :
    ((UserStatus [("loggedIn", .boolean loggedIn), ("isAdmin", .boolean isAdmin)]).run h).1 =
        element "h1" {} [text (match loggedIn, isAdmin with
          | true, true => "Welcome Admin!"
          | true, false => "Welcome User!"
          | false, _ => "Welcome Guest!")]
      ∧ ((UserStatus [("loggedIn", .boolean true), ("isAdmin", .boolean true)]).run h).1 =
        element "h1" {} [text "Welcome Admin!"]
      ∧ ((UserStatus [("loggedIn", .boolean true), ("isAdmin", .boolean false)]).run h).1 =
        element "h1" {} [text "Welcome User!"]
      ∧ ((UserStatus [("loggedIn", .boolean false), ("isAdmin", .boolean false)]).run h).1 =
        element "h1" {} [text "Welcome Guest!"]
      ∧ ((UserStatus [("loggedIn", .boolean false), ("isAdmin", .boolean true)]).run h).1 =
        element "h1" {} [text "Welcome Guest!"] := by
  refine ⟨?_, rfl, rfl, rfl, rfl⟩
  cases loggedIn <;> cases isAdmin <;> rfl

/-- C2: `ProductList` and `UserList` each render one group per record of
their literal list (three), in record order, and each group holds exactly
the two `h1` headings for the record's name and its price (or age), with
the authored texts. -/
theorem list_examples_one_group_per_record (h : Host) :
    ((ProductList.run h).1.children.length = ProductList.products.length
      ∧ ProductList.products.length = 3
      ∧ (ProductList.run h).1.children.map Node.children =
          ProductList.products.map (fun r =>
            [element "h1" {} [value (r.get "name")], element "h1" {} [value (r.get "price")]])
      ∧ (ProductList.run h).1.children.map Node.tag? = [some "div", some "div", some "div"]
      ∧ (ProductList.run h).1.children.map Node.values =
          [[.string "Phone", .string "$699"], [.string "Laptop", .string "$1200"],
           [.string "Headphones", .string "$199"]])
    ∧ ((UserList.run h).1.children.length = UserList.users.length
      ∧ UserList.users.length = 3
      ∧ (UserList.run h).1.children.map Node.children =
          UserList.users.map (fun r =>
            [element "h1" {} [value (r.get "name")], element "h1" {} [value (r.get "age")]])
      ∧ (UserList.run h).1.children.map Node.tag? = [some "div", some "div", some "div"]
      ∧ (UserList.run h).1.children.map Node.values =
          [[.string "Alice", .number 25], [.string "Bob", .number 30],
           [.string "Charlie", .number 22]]) :=
  ⟨⟨rfl, rfl, rfl, rfl, rfl⟩, ⟨rfl, rfl, rfl, rfl, rfl⟩⟩

/-- C3 as stated fails: `Greeting`, called with the same (empty) input in a
host whose clock reads 1970-01-01 and in one whose clock reads 1970-01-02,
returns two different trees. -/
theorem Greeting_tree_varies_with_clock :
    (Greeting.run (sampleHost 0)).1.values = [.string "John", .string "1/1/1970"]
      ∧ (Greeting.run (sampleHost 86400000)).1.values = [.string "John", .string "1/2/1970"]
      ∧ (Greeting.run (sampleHost 0)).1 ≠ (Greeting.run (sampleHost 86400000)).1 :=
  ⟨by decide, by decide, fun heq => absurd (congrArg Node.values heq) (by decide)⟩

/-- C3, amended: two invocations of a rendering function with the same props
return the same tree whatever the two host environments are, provided, for
`Greeting` only, that the host's locale date string of the current time is
the same at both calls. -/
theorem render_tree_determined (c : Component) (p : Props) (h1 h2 : Host)
    (hdate : c = .Greeting → h1.toLocaleDateString h1.now = h2.toLocaleDateString h2.now) :
    (c.render p h1).1 = (c.render p h2).1 := by
  cases c
  case Greeting =>
    show element "div" {} [element "h1" {} [value (.string "John")],
        element "p" {} [value (.string (h1.toLocaleDateString h1.now))]] =
      element "div" {} [element "h1" {} [value (.string "John")],
        element "p" {} [value (.string (h2.toLocaleDateString h2.now))]]
    rw [hdate rfl]
  case UserStatus =>
    show ((UserStatus p).run h1).1 = ((UserStatus p).run h2).1
    rw [UserStatus_run, UserStatus_run]
  all_goals rfl

/-- C3, amended, at a concrete input: two calls of `Greeting` one second apart on the same day, the second
after an alert was shown, return the same tree. -/
theorem render_tree_determined_witness :
    enUSDateString 0 = enUSDateString 1000
      ∧ (Component.Greeting.render [] (sampleHost 0)).1 =
          (Component.Greeting.render []
            { sampleHost 1000 with effects := [Effect.alert "Mouse Move Event Fired"] }).1 :=
  ⟨by decide,
   render_tree_determined .Greeting [] (sampleHost 0)
     { sampleHost 1000 with effects := [Effect.alert "Mouse Move Event Fired"] }
     (fun _ => by decide)⟩

/-- C4 fails at `MouseOverText.jsx`: that unit has no default export, while
each of the seven other units default-exports the component it defines. -/
theorem MouseOverText_unit_lacks_default_export :
    MouseOverTextModule.defaultExport = none
      ∧ sourceUnits.length = 8
      ∧ sourceUnits.filter (fun m => m.defaultExport == some m.component) =
          [JSXRulesModule, GreetingModule, ProductListModule, UserListModule,
           EmployeeModule, UserStatusModule, ProfileCardModule]
      ∧ sourceUnits.filter (fun m => m.defaultExport != some m.component) =
          [MouseOverTextModule] := by
  decide

/-- C5: the tree of `MouseOverText` carries exactly one handler, on
`onMouseOver`, and no other component's tree carries any; rendering any
component leaves the host environment unchanged; and one call of the handler
appends exactly one alert and then one console write of "Mouse Move Event
Fired" to the host's outputs, changing nothing else. -/
theorem MouseOverText_single_handler_effects (c : Component) (p : Props) (h : Host) :
    (MouseOverText.run h).1.handlers = [("onMouseOver", MouseOverText.moveHandler)]
      ∧ (MouseOverText.run h).1.handlers.map Prod.fst = ["onMouseOver"]
      ∧ (c.render p h).2 = h
      ∧ (c.render p h).1.handlers =
          (if c = .MouseOverText then [("onMouseOver", MouseOverText.moveHandler)] else [])
      ∧ MouseOverText.moveHandler.run h =
          ((), { h with effects := h.effects ++
            [Effect.alert "Mouse Move Event Fired", Effect.consoleLog "Mouse Move Event Fired"] }) := by
  refine ⟨rfl, rfl, ?_, ?_, ?_⟩
  · cases c <;> first
      | rfl
      | (show ((UserStatus p).run h).2 = h; rw [UserStatus_run])
  · cases c <;> first
      | rfl
      | (show ((UserStatus p).run h).1.handlers = _; rw [UserStatus_run]; rfl)
  · simp [MouseOverText.moveHandler, JS.run, alert, console.log, bind]

/-- C6: the container of `ProfileCard` carries a style object with exactly
the four authored properties, in order and unmodified. -/
theorem ProfileCard_style (h : Host) :
    (ProfileCard.run h).1.style? =
        some [("backgroundColor", .string "lightGray"), ("padding", .string "15px"),
              ("borderRadius", .string "8px"), ("color", .string "black")]
      ∧ (ProfileCard.run h).1.style?.map List.length = some 4
      ∧ (ProfileCard.run h).1.tag? = some "div" :=
  ⟨rfl, rfl, rfl⟩

/-- C7: whatever the host clock and date format are, the heading of
`Greeting` is an `h1` holding exactly the string "John"; the date only
appears in the paragraph that follows it. -/
theorem Greeting_heading_is_name (h : Host) :
    (Greeting.run h).1.children.head? = some (element "h1" {} [value (.string "John")])
      ∧ (Greeting.run h).1 =
          element "div" {} [
            element "h1" {} [value (.string "John")],
            element "p" {} [value (.string (h.toLocaleDateString h.now))]] :=
  ⟨rfl, rfl⟩

/-- C8: for every props object, `Employee` returns its three-node tree and
leaves the host unchanged; the three labels are present and each slot holds
the prop's value, or `undefined` when the prop is absent (all three are
`undefined` for the empty object); `UserStatus` returns an `h1` for every
props object, "Welcome Guest!" when `loggedIn` is absent and the `loggedIn`
branch alone when `isAdmin` is absent. -/
theorem missing_props_still_render (p : Props) (v : JSValue) (h : Host) :
    (Employee p).run h =
        (element "div" {} [
          element "h2" {} [text "Name: ", value ((p.lookup "name").getD .undefined)],
          element "p" {} [text "Position: ", value ((p.lookup "position").getD .undefined)],
          element "span" {} [text "Salary: $", value ((p.lookup "salary").getD .undefined)]], h)
      ∧ (Employee []).run h =
        (element "div" {} [
          element "h2" {} [text "Name: ", value .undefined],
          element "p" {} [text "Position: ", value .undefined],
          element "span" {} [text "Salary: $", value .undefined]], h)
      ∧ (Employee [("position", v)]).run h =
        (element "div" {} [
          element "h2" {} [text "Name: ", value .undefined],
          element "p" {} [text "Position: ", value v],
          element "span" {} [text "Salary: $", value .undefined]], h)
      ∧ (∃ t, (UserStatus p).run h = (element "h1" {} [text t], h))
      ∧ (UserStatus []).run h = (element "h1" {} [text "Welcome Guest!"], h)
      ∧ (UserStatus [("isAdmin", v)]).run h = (element "h1" {} [text "Welcome Guest!"], h)
      ∧ (UserStatus [("loggedIn", v)]).run h =
        (element "h1" {} [text (if v.toBoolean then "Welcome User!" else "Welcome Guest!")], h) := by
  refine ⟨rfl, rfl, rfl, ⟨_, UserStatus_run p h⟩, rfl, rfl, ?_⟩
  have g1 : JSObject.get [("loggedIn", v)] "loggedIn" = v := rfl
  have g2 : JSObject.get [("loggedIn", v)] "isAdmin" = .undefined := rfl
  have u : JSValue.undefined.toBoolean = false := rfl
  rw [UserStatus_run, g1, g2]
  cases hv : v.toBoolean <;> simp [JSValue.and, hv, u]

/-- C9: for every name, position and salary, `Employee` returns a `div` with
exactly three children in order: an `h2` holding "Name: " then the name, a
`p` holding "Position: " then the position, and a `span` holding the literal
text "Salary: $" then the salary, each value unchanged. -/
theorem Employee_tree (name position salary : JSValue) (h : Host) :
    ((Employee [("name", name), ("position", position), ("salary", salary)]).run h).1 =
        element "div" {} [
          element "h2" {} [value (.string "Name: "), value name],
          element "p" {} [value (.string "Position: "), value position],
          element "span" {} [value (.string "Salary: $"), value salary]]
      ∧ ((Employee [("name", name), ("position", position), ("salary", salary)]).run h).1.children.length = 3
      ∧ ((Employee [("name", name), ("position", position), ("salary", salary)]).run h).1.values =
        [.string "Name: ", name, .string "Position: ", position, .string "Salary: $", salary] :=
  ⟨rfl, rfl, rfl⟩

/-- C10 as stated fails: the key the first group of `ProductList` (and of
`UserList`) holds is the string "1", while the id of the first record is the
number 1, and the two are different JavaScript values; so the list of keys,
read as JavaScript values, is not the list of the records' ids. -/
theorem list_examples_key_is_not_the_id :
    ((ProductList.run (sampleHost 0)).1.children.head?.map Node.key? = some (some "1")
      ∧ ProductList.products.head?.map (fun r => r.get "id") = some (.number 1)
      ∧ (ProductList.run (sampleHost 0)).1.children.map (fun g => g.key?.map JSValue.string) ≠
          ProductList.products.map (fun r => some (r.get "id")))
    ∧ ((UserList.run (sampleHost 0)).1.children.head?.map Node.key? = some (some "1")
      ∧ UserList.users.head?.map (fun r => r.get "id") = some (.number 1)
      ∧ (UserList.run (sampleHost 0)).1.children.map (fun g => g.key?.map JSValue.string) ≠
          UserList.users.map (fun r => some (r.get "id"))) := by
  decide

/-- C10, amended: in `ProductList` and in `UserList` the key of the i-th
group is the string form of the id of the i-th record, the keys are "1",
"2", "3" in record order, and no two sibling groups share a key. -/
theorem list_examples_keys (h : Host) :
    ((ProductList.run h).1.children.map Node.key? =
          ProductList.products.map (fun r => some (r.get "id").toJSString)
      ∧ (ProductList.run h).1.children.map Node.key? = [some "1", some "2", some "3"]
      ∧ ((ProductList.run h).1.children.map Node.key?).Nodup)
    ∧ ((UserList.run h).1.children.map Node.key? =
          UserList.users.map (fun r => some (r.get "id").toJSString)
      ∧ (UserList.run h).1.children.map Node.key? = [some "1", some "2", some "3"]
      ∧ ((UserList.run h).1.children.map Node.key?).Nodup) := by
  have hn : [some "1", some "2", some "3"].Nodup := by decide
  exact ⟨⟨rfl, rfl, hn⟩, ⟨rfl, rfl, hn⟩⟩

end ReactBasic
